import Mathlib

/-!
A shallow embedding of sdlocker-tiny's SD-card SPI protocol engine
(`src/sdlocker-tiny.cpp`) and proofs about its behaviour.

The hardware SPI primitive `Xchg` is modelled by an explicit state `St`
carrying the stream of bytes the card will answer (`inp`, indexed by the
number of exchanges performed so far), the number of exchanges performed
(`pos`), the trace of bus events (`evs`, most recent event first), the
chip-select line (`selected`), and the two pieces of program state the
protocol engine mutates: `sdtype` and the 16-byte `csd` buffer.

Every C loop is translated as a fuel-indexed recursive function whose fuel
is the loop's iteration bound; the fuel value at each call site is the
bound from the source.
-/

namespace SdLocker

/-! ## Constants from the source -/

def SD_GO_IDLE : Nat := 0x40 + 0
def SD_INIT : Nat := 0x40 + 1
def SD_SEND_IF_COND : Nat := 0x40 + 8
def SD_SEND_CSD : Nat := 0x40 + 9
def SD_SEND_CID : Nat := 0x40 + 10
def SD_SEND_STATUS : Nat := 0x40 + 13
def SD_SET_BLK_LEN : Nat := 0x40 + 16
def SD_READ_BLK : Nat := 0x40 + 17
def SD_LOCK_UNLOCK : Nat := 0x40 + 42
def CMD55 : Nat := 0x40 + 55
def SD_READ_OCR : Nat := 0x40 + 58
def SD_ADV_INIT : Nat := 0xc0 + 41
def SD_PROGRAM_CSD : Nat := 0x40 + 27

def LOCK_BIT_MASK : Nat := 0x10
def CRC7_POLY : Nat := 0x89

def SDCARD_OK : Nat := 0
def SDCARD_NOT_DETECTED : Nat := 1
def SDCARD_TIMEOUT : Nat := 2
def SDCARD_RWFAIL : Nat := 3

def SDTYPE_UNKNOWN : Nat := 0
def SDTYPE_SD : Nat := 1
def SDTYPE_SDHC : Nat := 2

/-! ## Bus events and machine state -/

/-- One observable bus event: a byte sent on MOSI, or a chip-select edge. -/
inductive Ev where
  | xchg (b : Nat)
  | sel
  | desel
deriving DecidableEq, Repr

/-- Machine state: the card's answer stream, exchange counter, event trace
(most recent first), chip-select state, and the mutable globals `sdtype`
and `csd[16]` of the C program. -/
@[ext]
structure St where
  inp : Nat → Nat
  pos : Nat
  evs : List Ev
  selected : Bool
  sdtype : Nat
  csd : List Nat

/-- `Xchg(c)`: send byte `c`, receive the next byte of the card's stream.
Sent and received values are truncated to 8 bits as by `uint8_t`. -/
def Xchg (c : Nat) (s : St) : Nat × St :=
  (s.inp s.pos % 256,
   { s with pos := s.pos + 1, evs := Ev.xchg (c % 256) :: s.evs })

/-- `Xchg` when the received byte is ignored. -/
def xchg1 (c : Nat) (s : St) : St := (Xchg c s).2

/-- `Select()`: assert chip select. -/
def Select (s : St) : St := { s with selected := true, evs := Ev.sel :: s.evs }

/-- `Deselect()`: release chip select. -/
def Deselect (s : St) : St :=
  { s with selected := false, evs := Ev.desel :: s.evs }

/-! ## CRC7 engine (`GenerateCRCTable`, `AddByteToCRC`) -/

/-- First step of `GenerateCRCTable`'s inner computation:
`(i & 0x80) ? i ^ CRC7_POLY : i`. -/
def crc7Init (i : Nat) : Nat := if i &&& 0x80 = 0 then i else i ^^^ CRC7_POLY

/-- One iteration of `GenerateCRCTable`'s inner loop: shift left one bit in
an 8-bit register, xor the polynomial if bit 7 became set. -/
def crc7Shift (c : Nat) : Nat :=
  let c' := (c * 2) % 256
  if c' &&& 0x80 = 0 then c' else c' ^^^ CRC7_POLY

/-- `crctable[i]` as filled in by `GenerateCRCTable`: the initial
conditional xor followed by the 7 iterations `j = 1 .. 7`.  The index is
reduced mod 256 as the C array has 256 entries indexed by a byte. -/
def crctable (i : Nat) : Nat := crc7Shift^[7] (crc7Init (i % 256))

/-- `AddByteToCRC(crc, b) = crctable[(crc << 1) ^ b]`. -/
def AddByteToCRC (crc b : Nat) : Nat := crctable ((crc <<< 1) ^^^ b)

/-- Specification-side definition: one step of the standard CRC7 bit
recurrence for polynomial 0x89 — shift the next message bit into the
register and reduce when the degree-7 bit appears. -/
def crc7FeedBit (r b : Nat) : Nat :=
  let t := 2 * r + b
  if t &&& 0x80 = 0 then t else t ^^^ CRC7_POLY

/-- Specification-side definition: the standard CRC7 remainder of the
single byte `i`, i.e. the remainder of `i(x) * x^7` modulo `x^7+x^3+1`:
feed the 8 message bits most-significant first, then the 7 augmentation
zero bits. -/
def crc7Byte (i : Nat) : Nat :=
  let r8 := (List.range 8).foldl (fun r k => crc7FeedBit r ((i >>> (7 - k)) &&& 1)) 0
  (List.range 7).foldl (fun r _ => crc7FeedBit r 0) r8

/-! ## Command protocol engine (`SD_send_command`) -/

/-- The response-poll loop of `SD_send_command`: up to `fuel` exchanges of
0xFF, stopping at the first byte with the high bit clear; the byte read
last is returned either way.  Called with fuel 10. -/
def pollResp : Nat → St → Nat × St
  | 0, s => (0, s)
  | fuel + 1, s =>
    let x := Xchg 0xff s
    if x.1 &&& 0x80 = 0 then x
    else if fuel = 0 then x
    else pollResp fuel x.2

/-- The transmit phase of `SD_send_command`: deselect, one idle byte,
select, one idle byte, then the 6-byte frame — opcode|0x40, the argument
big-endian (most significant byte first), and the fixed per-command CRC
byte (`0x95` for GO_IDLE, `0x87` for SEND_IF_COND, `0x01` otherwise). -/
def cmdFrame (command arg : Nat) (s : St) : St :=
  let s1 := xchg1 0xff (Deselect s)
  let s2 := xchg1 0xff (Select s1)
  let s3 := xchg1 (command ||| 0x40) s2
  let s4 := xchg1 (arg >>> 24) s3
  let s5 := xchg1 (arg >>> 16) s4
  let s6 := xchg1 (arg >>> 8) s5
  let s7 := xchg1 (arg &&& 0xff) s6
  let crc := if command = SD_GO_IDLE then 0x95
             else if command = SD_SEND_IF_COND then 0x87
             else 0x01
  xchg1 crc s7

/-- The body of `SD_send_command` once the ACMD prefix has been handled:
the transmit phase, the response poll, and the deselect-plus-idle close
for commands that carry no data phase. -/
def SD_command_core (command arg : Nat) (s : St) : Nat × St :=
  let pr := pollResp 10 (cmdFrame command arg s)
  if command ≠ SD_READ_BLK ∧ command ≠ SD_READ_OCR ∧ command ≠ SD_SEND_CSD ∧
     command ≠ SD_SEND_STATUS ∧ command ≠ SD_SEND_CID ∧
     command ≠ SD_SEND_IF_COND ∧ command ≠ SD_LOCK_UNLOCK ∧
     command ≠ SD_PROGRAM_CSD then
    (pr.1, xchg1 0xff (Deselect pr.2))
  else
    pr

/-- `SD_send_command`: for an advanced command (high bit set) first send
CMD55 with argument 0 (the recursive call in the C source immediately
reaches the plain-command path since CMD55 has the high bit clear), abort
with that response if it exceeds 1, otherwise send the stripped command. -/
def SD_send_command (command arg : Nat) (s : St) : Nat × St :=
  if command &&& 0x80 ≠ 0 then
    let c55 := SD_command_core CMD55 0 s
    if c55.1 > 1 then c55
    else SD_command_core (command &&& 0x7f) arg c55.2
  else
    SD_command_core command arg s

/-- `SD_wait_for_data`'s loop: up to `fuel` exchanges of 0xFF, stopping at
the first byte that is not 0xFF; the byte read last is returned either
way.  Called with fuel 100. -/
def waitLoop : Nat → St → Nat × St
  | 0, s => (0, s)
  | fuel + 1, s =>
    let x := Xchg 0xff s
    if x.1 ≠ 0xff then x
    else if fuel = 0 then x
    else waitLoop fuel x.2

/-- `SD_wait_for_data()`. -/
def SD_wait_for_data (s : St) : Nat × St := waitLoop 100 s

/-! ## CSD register access (`ReadCSD`, `WriteCSD`) -/

/-- Read `n` bytes by exchanging 0xFF, returning them in order; models the
`for (i=0;i<16;i++) csd[i] = Xchg(0xff);` loop, which fills the buffer
with exactly the bytes read. -/
def readBytes : Nat → St → List Nat × St
  | 0, s => ([], s)
  | n + 1, s =>
    let x := Xchg 0xff s
    let r := readBytes n x.2
    (x.1 :: r.1, r.2)

/-- `ReadCSD()`: zero the buffer, send SEND_CSD, wait for the 0xFE data
token, then read 16 bytes into the buffer and burn the CRC byte. -/
def ReadCSD (s : St) : Nat × St :=
  let s0 := { s with csd := List.replicate 16 0 }
  let c := SD_send_command SD_SEND_CSD 0 s0
  let w := SD_wait_for_data c.2
  if w.1 ≠ 0xfe then (SDCARD_RWFAIL, w.2)
  else
    let rb := readBytes 16 w.2
    (SDCARD_OK, xchg1 0xff { rb.2 with csd := rb.1 })

/-- The data loop of `WriteCSD`: send each byte of `l` while folding it
into the running CRC7; returns the final CRC.  Called on the first 15
bytes of the csd buffer. -/
def sendBytesCRC : List Nat → Nat → St → Nat × St
  | [], tcrc, s => (tcrc, s)
  | b :: rest, tcrc, s => sendBytesCRC rest (AddByteToCRC tcrc b) (xchg1 b s)

/-- The busy-wait loop `while (!Xchg(0xff) && (--i));` of `WriteCSD` with
`i` starting at `fuel`: exchange 0xFF; a nonzero byte stops the loop with
the current counter, a zero byte decrements it, and the loop also stops
when the counter reaches zero.  Called with fuel 0xffff. -/
def busyWait : Nat → St → Nat × St
  | 0, s => (0, s)
  | fuel + 1, s =>
    let x := Xchg 0xff s
    if x.1 ≠ 0 then (fuel + 1, x.2)
    else busyWait fuel x.2

/-- `WriteCSD()`: send PROGRAM_CSD and fail on a nonzero response;
otherwise send the 0xFE token, the 15 csd data bytes, the CRC byte
`(tcrc << 1) + 1`, two ignored dummy bytes, and busy-wait. -/
def WriteCSD (s : St) : Nat × St :=
  let c := SD_send_command SD_PROGRAM_CSD 0 s
  if c.1 ≠ 0 then (SDCARD_RWFAIL, c.2)
  else
    let s1 := xchg1 0xfe c.2
    let dl := sendBytesCRC (s1.csd.take 15) 0 s1
    let s2 := xchg1 ((dl.1 <<< 1) + 1) dl.2
    let s3 := xchg1 0xff s2
    let s4 := xchg1 0xff s3
    let bw := busyWait 0xffff s4
    if bw.1 ≠ 0 then (SDCARD_OK, bw.2) else (SDCARD_TIMEOUT, bw.2)

/-! ## Initialization (`SDInit`) -/

/-- `n` idle exchanges of 0xFF (power-stabilization clocks, OCR burns). -/
def xchgN : Nat → St → St
  | 0, s => s
  | n + 1, s => xchgN n (xchg1 0xff s)

/-- The `SD_GO_IDLE` retry loop of `SDInit`: up to `fuel` attempts,
stopping at the first response equal to 0x01; the last response is
returned.  Called with fuel 10. -/
def goIdleLoop : Nat → St → Nat × St
  | 0, s => (0, s)
  | fuel + 1, s =>
    let c := SD_send_command SD_GO_IDLE 0 s
    if c.1 = 0x01 then c
    else if fuel = 0 then c
    else goIdleLoop fuel c.2

/-- The ACMD41 polling loop of the SDHC branch: up to `fuel` attempts,
stopping at the first zero response.  Called with fuel 20000. -/
def advInitLoop : Nat → St → Nat × St
  | 0, s => (0, s)
  | fuel + 1, s =>
    let c := SD_send_command SD_ADV_INIT (1 <<< 30) s
    if c.1 = 0 then c
    else if fuel = 0 then c
    else advInitLoop fuel c.2

/-- The CMD1 polling loop of the legacy branch: up to `fuel` attempts,
stopping at the first zero response.  Called with fuel 20000. -/
def initLoop : Nat → St → Nat × St
  | 0, s => (0, s)
  | fuel + 1, s =>
    let c := SD_send_command SD_INIT 0 s
    if c.1 = 0 then c
    else if fuel = 0 then c
    else initLoop fuel c.2

/-- The prologue of `SDInit`: reset `sdtype` to unknown, deselect, and
send the 10 power-stabilization clocks. -/
def sdInitPre (s : St) : St :=
  xchgN 10 (Deselect { s with sdtype := SDTYPE_UNKNOWN })

/-- `SDInit()` -/
def SDInit (s : St) : Nat × St :=
  let g := goIdleLoop 10 (sdInitPre s)
  if g.1 ≠ 0x01 then (SDCARD_NOT_DETECTED, g.2)
  else
    let c8 := SD_send_command SD_SEND_IF_COND 0x1aa g.2
    let s' :=
      if c8.1 = 0x01 then
        let al := advInitLoop 20000 (xchgN 4 c8.2)
        { al.2 with sdtype := SDTYPE_SDHC }
      else
        let ocr := SD_send_command SD_READ_OCR 0 c8.2
        if ocr.1 = 0x01 then
          let il := initLoop 20000 (xchgN 4 ocr.2)
          let bl := SD_send_command SD_SET_BLK_LEN 512 il.2
          { bl.2 with sdtype := SDTYPE_SD }
        else
          ocr.2
    (SDCARD_OK, xchg1 0xff s')

/-! ## Lock controller (`CardIsLocked`, `ToggleState`) -/

/-- `CardIsLocked()`: the lock bit of csd byte 14 (nonzero means locked). -/
def CardIsLocked (s : St) : Nat := s.csd.getD 14 0 &&& LOCK_BIT_MASK

/-- `ToggleState()`: flip the lock bit in the in-memory csd buffer, then
attempt `WriteCSD` (whose failure only blinks the LED, which is not part
of the modelled state). -/
def ToggleState (s : St) : St :=
  let b := s.csd.getD 14 0
  let s' :=
    if CardIsLocked s ≠ 0 then { s with csd := s.csd.set 14 (b &&& 0xef) }
    else { s with csd := s.csd.set 14 (b ||| LOCK_BIT_MASK) }
  (WriteCSD s').2

/-! ## Specification-side descriptions used by the theorems -/

/-- The per-command CRC byte as the spec states it. -/
def crcFor (command : Nat) : Nat :=
  if command = SD_GO_IDLE then 0x95
  else if command = SD_SEND_IF_COND then 0x87
  else 0x01

/-- The events of one command frame, most recent first: deselect, idle,
select, idle, then the six frame bytes `command|0x40`, the four argument
bytes most-significant first, and the CRC byte. -/
def frameEvs (command arg : Nat) : List Ev :=
  [Ev.xchg (crcFor command),
   Ev.xchg ((arg &&& 0xff) % 256),
   Ev.xchg ((arg >>> 8) % 256),
   Ev.xchg ((arg >>> 16) % 256),
   Ev.xchg ((arg >>> 24) % 256),
   Ev.xchg ((command ||| 0x40) % 256),
   Ev.xchg 0xff, Ev.sel, Ev.xchg 0xff, Ev.desel]

/-- The commands after which the card stays selected. -/
def keepSelected : List Nat :=
  [SD_READ_BLK, SD_READ_OCR, SD_SEND_CSD, SD_SEND_STATUS, SD_SEND_CID,
   SD_SEND_IF_COND, SD_LOCK_UNLOCK, SD_PROGRAM_CSD]

/-- State advanced by `m` exchanges of 0xFF. -/
def advance (m : Nat) (s : St) : St :=
  { s with pos := s.pos + m,
           evs := List.replicate m (Ev.xchg 0xff) ++ s.evs }

/-- The events of a sent data-byte sequence, most recent first. -/
def dataEvs (l : List Nat) : List Ev :=
  (l.map (fun b => Ev.xchg (b % 256))).reverse

/-- The parts of the state a command exchange never writes: the card's
answer stream, the csd buffer, and the detected card type. -/
def Keeps (s t : St) : Prop :=
  t.inp = s.inp ∧ t.csd = s.csd ∧ t.sdtype = s.sdtype

/-- State reached after one more `SD_GO_IDLE` command. -/
def goIdleState (s : St) : St := (SD_send_command SD_GO_IDLE 0 s).2

/-- Response of the `k`-th `SD_GO_IDLE` command (0-indexed) in a run that
issues them back to back starting from `s`. -/
def goIdleResp (s : St) (k : Nat) : Nat :=
  (SD_send_command SD_GO_IDLE 0 (goIdleState^[k] s)).1

/-! ## Concrete states used by the witnesses -/

/-- A card that answers 0xFF to everything (absent card). -/
def sEx : St :=
  { inp := fun _ => 0xff, pos := 0, evs := [], selected := false,
    sdtype := 0, csd := List.replicate 16 0 }

/-- A card whose responses drive `SDInit` through the go-idle handshake
(response 0x01 at exchange 18) but fail both card-type probes (response
0x05 at exchanges 28 and 37). -/
def sEx2 : St :=
  { sEx with
    inp := fun k => if k = 18 then 1 else if k = 28 then 5
                    else if k = 37 then 5 else 0xff }

/-- A card that answers 0x05 to everything: every command response is 5. -/
def sEx5 : St := { sEx with inp := fun _ => 5 }

/-- `sEx5` with a csd buffer whose byte 14 has the lock bit set. -/
def sExL : St := { sEx5 with csd := (List.replicate 16 0).set 14 0x35 }

/-! ## Transport-level lemmas -/

@[simp] theorem advance_inp (m : Nat) (s : St) : (advance m s).inp = s.inp := rfl

@[simp] theorem advance_csd (m : Nat) (s : St) : (advance m s).csd = s.csd := rfl

@[simp] theorem advance_sdtype (m : Nat) (s : St) :
    (advance m s).sdtype = s.sdtype := rfl

@[simp] theorem advance_selected (m : Nat) (s : St) :
    (advance m s).selected = s.selected := rfl

@[simp] theorem advance_pos (m : Nat) (s : St) :
    (advance m s).pos = s.pos + m := rfl

theorem advance_zero (s : St) : advance 0 s = s := by
  simp [advance]

theorem xchg1_ff (s : St) : xchg1 0xff s = advance 1 s := by
  simp [xchg1, Xchg, advance]

theorem advance_advance (m n : Nat) (s : St) :
    advance m (advance n s) = advance (n + m) s := by
  simp only [advance, ← List.append_assoc, ← List.replicate_add]
  simp [Nat.add_comm, Nat.add_assoc, Nat.add_left_comm]

theorem keeps_advance (m : Nat) (s : St) : Keeps s (advance m s) :=
  ⟨rfl, rfl, rfl⟩

theorem Keeps.trans {s t u : St} (h1 : Keeps s t) (h2 : Keeps t u) :
    Keeps s u :=
  ⟨h2.1.trans h1.1, h2.2.1.trans h1.2.1, h2.2.2.trans h1.2.2⟩

/-! ## The response-poll loop -/

theorem pollResp_advance (fuel : Nat) :
    ∀ s : St, ∃ m, (pollResp fuel s).2 = advance m s := by
  induction fuel with
  | zero => exact fun s => ⟨0, (advance_zero s).symm⟩
  | succ n ih =>
    intro s
    simp only [pollResp]
    split_ifs with h1 h2
    · exact ⟨1, xchg1_ff s⟩
    · exact ⟨1, xchg1_ff s⟩
    · obtain ⟨m, hm⟩ := ih (Xchg 0xff s).2
      refine ⟨1 + m, ?_⟩
      have : (Xchg 0xff s).2 = advance 1 s := xchg1_ff s
      rw [hm, this, advance_advance]

@[simp] theorem pollResp_inp (fuel : Nat) (s : St) :
    (pollResp fuel s).2.inp = s.inp := by
  obtain ⟨m, hm⟩ := pollResp_advance fuel s; rw [hm]; rfl

@[simp] theorem pollResp_csd (fuel : Nat) (s : St) :
    (pollResp fuel s).2.csd = s.csd := by
  obtain ⟨m, hm⟩ := pollResp_advance fuel s; rw [hm]; rfl

@[simp] theorem pollResp_sdtype (fuel : Nat) (s : St) :
    (pollResp fuel s).2.sdtype = s.sdtype := by
  obtain ⟨m, hm⟩ := pollResp_advance fuel s; rw [hm]; rfl

@[simp] theorem pollResp_selected (fuel : Nat) (s : St) :
    (pollResp fuel s).2.selected = s.selected := by
  obtain ⟨m, hm⟩ := pollResp_advance fuel s; rw [hm]; rfl

theorem pollResp_evs (fuel : Nat) (s : St) :
    ∃ l, (pollResp fuel s).2.evs = l ++ s.evs ∧
      ∀ e ∈ l, e = Ev.xchg 0xff := by
  obtain ⟨m, hm⟩ := pollResp_advance fuel s
  refine ⟨List.replicate m (Ev.xchg 0xff), ?_, ?_⟩
  · rw [hm]; rfl
  · intro e he; exact List.eq_of_mem_replicate he

/-! ## The idle-clock loop -/

theorem xchgN_advance (n : Nat) : ∀ s : St, xchgN n s = advance n s := by
  induction n with
  | zero => exact fun s => (advance_zero s).symm
  | succ m ih =>
    intro s
    show xchgN m (xchg1 0xff s) = _
    rw [ih, xchg1_ff, advance_advance, Nat.add_comm]

/-! ## The data-token wait loop -/

theorem Xchg_snd_ff (s : St) : (Xchg 0xff s).2 = advance 1 s := xchg1_ff s

theorem Xchg_inp_shift (s : St) (k : Nat) :
    (Xchg 0xff s).2.inp ((Xchg 0xff s).2.pos + k) = s.inp (s.pos + (k + 1)) := by
  rw [show (Xchg 0xff s).2.inp = s.inp from rfl,
      show (Xchg 0xff s).2.pos = s.pos + 1 from rfl]
  congr 1
  omega

theorem waitLoop_all_ff (fuel : Nat) :
    ∀ s : St, 1 ≤ fuel → (∀ k < fuel, s.inp (s.pos + k) % 256 = 0xff) →
      waitLoop fuel s = (0xff, advance fuel s) := by
  induction fuel with
  | zero => omega
  | succ n ih =>
    intro s _ h
    simp only [waitLoop]
    have h0 : (Xchg 0xff s).1 = 0xff := by
      have := h 0 (Nat.succ_pos n); simpa [Xchg] using this
    rw [if_neg (by simp [h0])]
    rcases Nat.eq_zero_or_pos n with hn | hn
    · subst hn
      rw [if_pos rfl, Prod.ext_iff]
      exact ⟨h0, Xchg_snd_ff s⟩
    · rw [if_neg (by omega)]
      have harg : ∀ k < n, (Xchg 0xff s).2.inp ((Xchg 0xff s).2.pos + k) % 256 = 0xff := by
        intro k hk
        rw [Xchg_inp_shift]
        exact h (k + 1) (by omega)
      rw [ih (Xchg 0xff s).2 hn harg, Xchg_snd_ff, advance_advance, Nat.add_comm]

theorem waitLoop_found (fuel : Nat) :
    ∀ (s : St) (k : Nat), k < fuel →
      (∀ j < k, s.inp (s.pos + j) % 256 = 0xff) →
      s.inp (s.pos + k) % 256 ≠ 0xff →
      waitLoop fuel s = (s.inp (s.pos + k) % 256, advance (k + 1) s) := by
  induction fuel with
  | zero => omega
  | succ n ih =>
    intro s k hk hj hne
    simp only [waitLoop]
    rcases Nat.eq_zero_or_pos k with hk0 | hkpos
    · subst hk0
      have h0 : (Xchg 0xff s).1 = s.inp (s.pos + 0) % 256 := by simp [Xchg]
      rw [if_pos (by rw [h0]; exact hne), Prod.ext_iff]
      exact ⟨h0, Xchg_snd_ff s⟩
    · have h0 : (Xchg 0xff s).1 = 0xff := by
        have := hj 0 hkpos; simpa [Xchg] using this
      rw [if_neg (by simp [h0]), if_neg (by omega)]
      have hrec := ih (Xchg 0xff s).2 (k - 1) (by omega)
        (by intro j hjk
            rw [Xchg_inp_shift]
            exact hj (j + 1) (by omega))
        (by rw [Xchg_inp_shift, show k - 1 + 1 = k from by omega]; exact hne)
      rw [hrec, Xchg_inp_shift, Xchg_snd_ff, advance_advance,
          show k - 1 + 1 = k from by omega, Nat.add_comm 1 k]

/-! ## The busy-wait loop of `WriteCSD` -/

theorem busyWait_all_zero (fuel : Nat) :
    ∀ s : St, (∀ k < fuel, s.inp (s.pos + k) % 256 = 0) →
      busyWait fuel s = (0, advance fuel s) := by
  induction fuel with
  | zero => intro s _; rw [busyWait, advance_zero]
  | succ n ih =>
    intro s h
    simp only [busyWait]
    have h0 : (Xchg 0xff s).1 = 0 := by
      have := h 0 (Nat.succ_pos n); simpa [Xchg] using this
    rw [if_neg (by simp [h0])]
    have harg : ∀ k < n, (Xchg 0xff s).2.inp ((Xchg 0xff s).2.pos + k) % 256 = 0 := by
      intro k hk
      rw [Xchg_inp_shift]
      exact h (k + 1) (by omega)
    rw [ih (Xchg 0xff s).2 harg, Xchg_snd_ff, advance_advance, Nat.add_comm]

theorem busyWait_found (fuel : Nat) :
    ∀ (s : St) (k : Nat), k < fuel →
      (∀ j < k, s.inp (s.pos + j) % 256 = 0) →
      s.inp (s.pos + k) % 256 ≠ 0 →
      busyWait fuel s = (fuel - k, advance (k + 1) s) := by
  induction fuel with
  | zero => omega
  | succ n ih =>
    intro s k hk hj hne
    simp only [busyWait]
    rcases Nat.eq_zero_or_pos k with hk0 | hkpos
    · subst hk0
      have h0 : (Xchg 0xff s).1 = s.inp (s.pos + 0) % 256 := by simp [Xchg]
      rw [if_pos (by rw [h0]; exact hne), Prod.ext_iff]
      exact ⟨rfl, Xchg_snd_ff s⟩
    · have h0 : (Xchg 0xff s).1 = 0 := by
        have := hj 0 hkpos; simpa [Xchg] using this
      rw [if_neg (by simp [h0])]
      have hrec := ih (Xchg 0xff s).2 (k - 1) (by omega)
        (by intro j hjk
            rw [Xchg_inp_shift]
            exact hj (j + 1) (by omega))
        (by rw [Xchg_inp_shift, show k - 1 + 1 = k from by omega]; exact hne)
      rw [hrec, Xchg_snd_ff, advance_advance,
          show k - 1 + 1 = k from by omega, Nat.add_comm 1 k,
          show n - (k - 1) = n + 1 - k from by omega]

/-- The busy-wait returns a nonzero counter exactly when one of its `fuel`
exchanges yields a nonzero byte. -/
theorem busyWait_ok_iff (fuel : Nat) (s : St) :
    (busyWait fuel s).1 ≠ 0 ↔ ∃ k < fuel, s.inp (s.pos + k) % 256 ≠ 0 := by
  constructor
  · intro hne
    by_contra hall
    push_neg at hall
    rw [busyWait_all_zero fuel s hall] at hne
    exact hne rfl
  · intro ⟨k, hk, hkne⟩
    have hex : ∃ j, j < fuel ∧ s.inp (s.pos + j) % 256 ≠ 0 := ⟨k, hk, hkne⟩
    have hspec := Nat.find_spec hex
    have hfound := busyWait_found fuel s (Nat.find hex) hspec.1
      (fun j hj => by
        by_contra hne
        exact Nat.find_min hex hj ⟨by omega, hne⟩) hspec.2
    rw [hfound]
    have := hspec.1
    omega

/-! ## The read loop of `ReadCSD` -/

theorem readBytes_eq (n : Nat) :
    ∀ s : St, readBytes n s =
      ((List.range n).map (fun k => s.inp (s.pos + k) % 256), advance n s) := by
  induction n with
  | zero => intro s; rw [readBytes, advance_zero]; rfl
  | succ m ih =>
    intro s
    have hfun : (fun k => (Xchg 0xff s).2.inp ((Xchg 0xff s).2.pos + k) % 256)
        = (fun k => s.inp (s.pos + (k + 1)) % 256) := by
      funext k; rw [Xchg_inp_shift]
    simp only [readBytes, ih, hfun, Xchg_snd_ff, advance_advance]
    rw [List.range_succ_eq_map, List.map_cons, List.map_map]
    refine Prod.ext ?_ ?_
    · refine congrArg₂ List.cons (by simp [Xchg]) ?_
      have hc : ((fun k => s.inp (s.pos + k) % 256) ∘ Nat.succ)
          = fun k => s.inp (s.pos + 1 + k) % 256 := by
        funext k
        show s.inp (s.pos + (k + 1)) % 256 = s.inp (s.pos + 1 + k) % 256
        congr 2
        omega
      rw [hc]
      rfl
    · show advance (1 + m) s = advance (m + 1) s
      rw [Nat.add_comm 1 m]

/-! ## The data loop of `WriteCSD` -/

theorem sendBytesCRC_eq (l : List Nat) :
    ∀ (tcrc : Nat) (s : St), sendBytesCRC l tcrc s =
      (l.foldl AddByteToCRC tcrc,
       { s with pos := s.pos + l.length, evs := dataEvs l ++ s.evs }) := by
  induction l with
  | nil => intro tcrc s; simp [sendBytesCRC, dataEvs]
  | cons b rest ih =>
    intro tcrc s
    simp only [sendBytesCRC, ih, List.foldl_cons, List.length_cons]
    refine Prod.ext rfl ?_
    refine St.ext rfl ?_ ?_ rfl rfl rfl
    · show s.pos + 1 + rest.length = s.pos + (rest.length + 1)
      omega
    · show dataEvs rest ++ Ev.xchg (b % 256) :: s.evs = dataEvs (b :: rest) ++ s.evs
      simp [dataEvs]

/-! ## The command frame and `SD_command_core` -/

theorem crc_mod (c : Nat) :
    (if c = SD_GO_IDLE then 0x95 else if c = SD_SEND_IF_COND then 0x87
     else 0x01) % 256 = crcFor c := by
  unfold crcFor
  split_ifs <;> rfl

theorem cmdFrame_eq (c a : Nat) (s : St) :
    cmdFrame c a s =
      { s with pos := s.pos + 8, evs := frameEvs c a ++ s.evs,
               selected := true } := by
  refine St.ext rfl ?_ ?_ rfl rfl rfl
  · show s.pos + 1 + 1 + 1 + 1 + 1 + 1 + 1 + 1 = s.pos + 8
    omega
  · simp [cmdFrame, xchg1, Xchg, Select, Deselect, frameEvs, crc_mod]

theorem keep_iff (c : Nat) :
    c ∈ keepSelected ↔
      ¬(c ≠ SD_READ_BLK ∧ c ≠ SD_READ_OCR ∧ c ≠ SD_SEND_CSD ∧
        c ≠ SD_SEND_STATUS ∧ c ≠ SD_SEND_CID ∧ c ≠ SD_SEND_IF_COND ∧
        c ≠ SD_LOCK_UNLOCK ∧ c ≠ SD_PROGRAM_CSD) := by
  simp only [keepSelected, List.mem_cons, List.not_mem_nil, or_false]
  tauto

@[simp] theorem core_inp (c a : Nat) (s : St) :
    (SD_command_core c a s).2.inp = s.inp := by
  simp only [SD_command_core]
  split <;> simp [xchg1, Xchg, Deselect, cmdFrame_eq]

@[simp] theorem core_csd (c a : Nat) (s : St) :
    (SD_command_core c a s).2.csd = s.csd := by
  simp only [SD_command_core]
  split <;> simp [xchg1, Xchg, Deselect, cmdFrame_eq]

@[simp] theorem core_sdtype (c a : Nat) (s : St) :
    (SD_command_core c a s).2.sdtype = s.sdtype := by
  simp only [SD_command_core]
  split <;> simp [xchg1, Xchg, Deselect, cmdFrame_eq]

theorem core_selected (c a : Nat) (s : St) :
    (SD_command_core c a s).2.selected = true ↔ c ∈ keepSelected := by
  rw [keep_iff]
  simp only [SD_command_core]
  split
  · rename_i h
    simp [xchg1, Xchg, Deselect, h]
  · rename_i h
    simp [cmdFrame_eq, h]

theorem core_evs (c a : Nat) (s : St) :
    ∃ tail, (SD_command_core c a s).2.evs = tail ++ frameEvs c a ++ s.evs ∧
      ∀ e ∈ tail, e = Ev.xchg 0xff ∨ e = Ev.desel := by
  obtain ⟨l, hl, hff⟩ := pollResp_evs 10 (cmdFrame c a s)
  have hevs : (pollResp 10 (cmdFrame c a s)).2.evs =
      l ++ frameEvs c a ++ s.evs := by
    rw [hl, cmdFrame_eq]
    simp [List.append_assoc]
  simp only [SD_command_core]
  split
  · refine ⟨Ev.xchg 0xff :: Ev.desel :: l, ?_, ?_⟩
    · show Ev.xchg 0xff :: Ev.desel :: (pollResp 10 (cmdFrame c a s)).2.evs =
        (Ev.xchg 0xff :: Ev.desel :: l) ++ frameEvs c a ++ s.evs
      rw [hevs]
      rfl
    · intro e he
      simp only [List.mem_cons] at he
      rcases he with rfl | rfl | he
      · exact Or.inl rfl
      · exact Or.inr rfl
      · exact Or.inl (hff e he)
  · exact ⟨l, hevs, fun e he => Or.inl (hff e he)⟩

theorem core_deselects (c a : Nat) (s : St) (h : c ∉ keepSelected) :
    ∃ l, (SD_command_core c a s).2.evs = Ev.xchg 0xff :: Ev.desel :: l := by
  have hcond := not_not.mp (fun hnc => h ((keep_iff c).mpr hnc))
  simp only [SD_command_core]
  rw [if_pos hcond]
  exact ⟨(pollResp 10 (cmdFrame c a s)).2.evs, rfl⟩

/-! ## `SD_send_command` -/

theorem send_plain (c a : Nat) (s : St) (h : c &&& 0x80 = 0) :
    SD_send_command c a s = SD_command_core c a s := by
  simp [SD_send_command, h]

@[simp] theorem send_inp (c a : Nat) (s : St) :
    (SD_send_command c a s).2.inp = s.inp := by
  simp only [SD_send_command]
  split_ifs <;> simp

@[simp] theorem send_csd (c a : Nat) (s : St) :
    (SD_send_command c a s).2.csd = s.csd := by
  simp only [SD_send_command]
  split_ifs <;> simp

@[simp] theorem send_sdtype (c a : Nat) (s : St) :
    (SD_send_command c a s).2.sdtype = s.sdtype := by
  simp only [SD_send_command]
  split_ifs <;> simp

/-! ## `WriteCSD` plumbing -/

theorem busyWait_advance (fuel : Nat) :
    ∀ s : St, ∃ m, (busyWait fuel s).2 = advance m s := by
  induction fuel with
  | zero => exact fun s => ⟨0, (advance_zero s).symm⟩
  | succ n ih =>
    intro s
    simp only [busyWait]
    split_ifs with h1
    · exact ⟨1, Xchg_snd_ff s⟩
    · obtain ⟨m, hm⟩ := ih (Xchg 0xff s).2
      exact ⟨1 + m, by rw [hm, Xchg_snd_ff, advance_advance]⟩

theorem writeCSD_data_state (c2 : St) (l : List Nat) (hl : c2.csd = l)
    (h15 : (l.take 15).length = 15) :
    xchg1 0xff (xchg1 0xff
      (xchg1 ((sendBytesCRC ((xchg1 0xfe c2).csd.take 15) 0 (xchg1 0xfe c2)).1 <<< 1 + 1)
        (sendBytesCRC ((xchg1 0xfe c2).csd.take 15) 0 (xchg1 0xfe c2)).2))
    = { c2 with
        pos := c2.pos + 19,
        evs := Ev.xchg 0xff :: Ev.xchg 0xff ::
          Ev.xchg (((l.take 15).foldl AddByteToCRC 0 <<< 1 + 1) % 256) ::
          (dataEvs (l.take 15) ++ Ev.xchg 0xfe :: c2.evs) } := by
  rw [show (xchg1 0xfe c2).csd = c2.csd from rfl, hl, sendBytesCRC_eq]
  refine St.ext rfl ?_ rfl rfl rfl hl
  show c2.pos + 1 + (l.take 15).length + 1 + 1 + 1 = c2.pos + 19
  rw [h15]

/-! ## Preservation lemmas for the loops of `SDInit` and `WriteCSD` -/

@[simp] theorem busyWait_csd (fuel : Nat) (s : St) :
    (busyWait fuel s).2.csd = s.csd := by
  obtain ⟨m, hm⟩ := busyWait_advance fuel s; rw [hm]; rfl

@[simp] theorem sendBytesCRC_csd (l : List Nat) (tcrc : Nat) (s : St) :
    (sendBytesCRC l tcrc s).2.csd = s.csd := by
  rw [sendBytesCRC_eq]

@[simp] theorem writeCSD_csd (s : St) : (WriteCSD s).2.csd = s.csd := by
  simp only [WriteCSD]
  split_ifs <;> simp [xchg1, Xchg]

@[simp] theorem goIdleLoop_sdtype (fuel : Nat) :
    ∀ s : St, (goIdleLoop fuel s).2.sdtype = s.sdtype := by
  induction fuel with
  | zero => intro s; rfl
  | succ n ih =>
    intro s
    simp only [goIdleLoop]
    split_ifs <;> simp [ih]

@[simp] theorem sdInitPre_sdtype (s : St) :
    (sdInitPre s).sdtype = SDTYPE_UNKNOWN := by
  rw [sdInitPre, xchgN_advance]
  rfl

theorem goIdleLoop_one_iff (fuel : Nat) :
    ∀ s : St, (goIdleLoop fuel s).1 = 0x01 ↔
      ∃ k < fuel, goIdleResp s k = 0x01 := by
  induction fuel with
  | zero =>
    intro s
    refine iff_of_false ?_ ?_
    · show ¬((0 : Nat) = 0x01)
      decide
    · rintro ⟨k, hk, _⟩
      omega
  | succ n ih =>
    intro s
    simp only [goIdleLoop]
    by_cases h1 : (SD_send_command SD_GO_IDLE 0 s).1 = 0x01
    · rw [if_pos h1]
      exact iff_of_true h1 ⟨0, Nat.succ_pos n, h1⟩
    · rw [if_neg h1]
      by_cases hn : n = 0
      · subst hn
        rw [if_pos rfl]
        refine iff_of_false h1 ?_
        rintro ⟨k, hk, hresp⟩
        have hk0 : k = 0 := by omega
        subst hk0
        exact h1 hresp
      · rw [if_neg hn, ih]
        constructor
        · rintro ⟨k, hk, hresp⟩
          refine ⟨k + 1, by omega, ?_⟩
          show (SD_send_command SD_GO_IDLE 0 (goIdleState^[k + 1] s)).1 = 0x01
          rw [Function.iterate_succ_apply]
          exact hresp
        · rintro ⟨k, hk, hresp⟩
          match k with
          | 0 => exact absurd hresp h1
          | k' + 1 =>
            refine ⟨k', by omega, ?_⟩
            have : (SD_send_command SD_GO_IDLE 0 (goIdleState^[k' + 1] s)).1 = 0x01 :=
              hresp
            rwa [Function.iterate_succ_apply] at this

/-! ## Lock-bit plumbing -/

theorem getD_set_14 (l : List Nat) (h : 14 < l.length) (v : Nat) :
    (l.set 14 v).getD 14 0 = v := by
  simp [List.getD_eq_getElem?_getD, List.getElem?_set_self, h]

theorem getD_set_other (l : List Nat) (i v : Nat) (h : i ≠ 14) :
    (l.set 14 v).getD i 0 = l.getD i 0 := by
  simp [List.getD_eq_getElem?_getD, List.getElem?_set_ne (Ne.symm h)]

set_option maxRecDepth 4000 in
theorem flip_flip : ∀ b, b < 256 →
    (if ((if b &&& LOCK_BIT_MASK ≠ 0 then b &&& 0xef
          else b ||| LOCK_BIT_MASK) &&& LOCK_BIT_MASK) ≠ 0 then
       (if b &&& LOCK_BIT_MASK ≠ 0 then b &&& 0xef
        else b ||| LOCK_BIT_MASK) &&& 0xef
     else
       (if b &&& LOCK_BIT_MASK ≠ 0 then b &&& 0xef
        else b ||| LOCK_BIT_MASK) ||| LOCK_BIT_MASK) = b := by
  decide

set_option maxRecDepth 4000 in
theorem lockbit_clear : ∀ b, b < 256 →
    (b &&& 0xef) &&& LOCK_BIT_MASK = 0 := by
  decide

set_option maxRecDepth 4000 in
theorem lockbit_set : ∀ b, b < 256 →
    (b ||| LOCK_BIT_MASK) &&& LOCK_BIT_MASK = LOCK_BIT_MASK := by
  decide

theorem toggle_csd (s : St) : (ToggleState s).csd =
    s.csd.set 14 (if s.csd.getD 14 0 &&& LOCK_BIT_MASK ≠ 0
      then s.csd.getD 14 0 &&& 0xef
      else s.csd.getD 14 0 ||| LOCK_BIT_MASK) := by
  simp only [ToggleState, CardIsLocked]
  split_ifs with h
  · simp
  · simp

/-! ## Claim theorems -/

set_option maxRecDepth 4000 in
/-- C1: for every input byte `i` in 0..255, `GenerateCRCTable` sets
`crctable[i]` to the standard CRC7 remainder of `i` under polynomial
0x89 (the 8-step XOR-shift recurrence); the table depends only on the
fixed polynomial. -/
theorem crctable_standard_crc7 : ∀ i, i < 256 → crctable i = crc7Byte i := by
  decide

theorem crctable_standard_crc7_witness :
    0xa5 < 256 ∧ crctable 0xa5 = crc7Byte 0xa5 :=
  ⟨by decide, crctable_standard_crc7 0xa5 (by decide)⟩

/-- C4: for every command code with the high bit set, `SD_send_command`
first sends CMD55 with argument 0 (its frame appears on the wire); if the
CMD55 response exceeds 1 the call returns that response with no further
bus activity, and otherwise the target command, with its high bit
stripped, is transmitted immediately after the CMD55 exchange. -/
theorem sendCommand_acmd_prefix (command arg : Nat) (s : St)
    (h : command &&& 0x80 ≠ 0) :
    (∃ t55, (SD_command_core CMD55 0 s).2.evs = t55 ++ frameEvs CMD55 0 ++ s.evs ∧
       ∀ e ∈ t55, e = Ev.xchg 0xff ∨ e = Ev.desel) ∧
    (((SD_command_core CMD55 0 s).1 > 1 ∧
        SD_send_command command arg s = SD_command_core CMD55 0 s) ∨
     ((SD_command_core CMD55 0 s).1 ≤ 1 ∧
        SD_send_command command arg s =
          SD_command_core (command &&& 0x7f) arg (SD_command_core CMD55 0 s).2 ∧
        ∃ tail, (SD_send_command command arg s).2.evs =
            tail ++ frameEvs (command &&& 0x7f) arg ++
              (SD_command_core CMD55 0 s).2.evs ∧
          ∀ e ∈ tail, e = Ev.xchg 0xff ∨ e = Ev.desel)) := by
  refine ⟨core_evs CMD55 0 s, ?_⟩
  by_cases h55 : (SD_command_core CMD55 0 s).1 > 1
  · refine Or.inl ⟨h55, ?_⟩
    simp [SD_send_command, h, h55]
  · refine Or.inr ⟨by omega, ?_, ?_⟩
    · simp [SD_send_command, h, h55]
    · have heq : SD_send_command command arg s =
          SD_command_core (command &&& 0x7f) arg (SD_command_core CMD55 0 s).2 := by
        simp [SD_send_command, h, h55]
      rw [heq]
      exact core_evs (command &&& 0x7f) arg (SD_command_core CMD55 0 s).2

theorem sendCommand_acmd_prefix_witness :
    SD_ADV_INIT &&& 0x80 ≠ 0 ∧
    ((∃ t55, (SD_command_core CMD55 0 sEx).2.evs = t55 ++ frameEvs CMD55 0 ++ sEx.evs ∧
       ∀ e ∈ t55, e = Ev.xchg 0xff ∨ e = Ev.desel) ∧
     (((SD_command_core CMD55 0 sEx).1 > 1 ∧
        SD_send_command SD_ADV_INIT 0x40000000 sEx = SD_command_core CMD55 0 sEx) ∨
      ((SD_command_core CMD55 0 sEx).1 ≤ 1 ∧
        SD_send_command SD_ADV_INIT 0x40000000 sEx =
          SD_command_core (SD_ADV_INIT &&& 0x7f) 0x40000000
            (SD_command_core CMD55 0 sEx).2 ∧
        ∃ tail, (SD_send_command SD_ADV_INIT 0x40000000 sEx).2.evs =
            tail ++ frameEvs (SD_ADV_INIT &&& 0x7f) 0x40000000 ++
              (SD_command_core CMD55 0 sEx).2.evs ∧
          ∀ e ∈ tail, e = Ev.xchg 0xff ∨ e = Ev.desel))) :=
  ⟨by decide, sendCommand_acmd_prefix SD_ADV_INIT 0x40000000 sEx (by decide)⟩

/-- C5: for every command with the high bit clear, `SD_send_command` puts
exactly the 6-byte frame on the wire — opcode|0x40, the four argument
bytes most significant first, and the per-command CRC byte 0x95 / 0x87 /
0x01 — surrounded only by select edges and idle 0xFF exchanges
(`frameEvs` lists the frame events most recent first). -/
theorem sendCommand_frame_bytes (command arg : Nat) (s : St)
    (h : command &&& 0x80 = 0) :
    ∃ tail, (SD_send_command command arg s).2.evs =
        tail ++ frameEvs command arg ++ s.evs ∧
      ∀ e ∈ tail, e = Ev.xchg 0xff ∨ e = Ev.desel := by
  rw [send_plain command arg s h]
  exact core_evs command arg s

theorem sendCommand_frame_bytes_witness :
    SD_SEND_CSD &&& 0x80 = 0 ∧
    ∃ tail, (SD_send_command SD_SEND_CSD 0x12345678 sEx).2.evs =
        tail ++ frameEvs SD_SEND_CSD 0x12345678 ++ sEx.evs ∧
      ∀ e ∈ tail, e = Ev.xchg 0xff ∨ e = Ev.desel :=
  ⟨by decide, sendCommand_frame_bytes SD_SEND_CSD 0x12345678 sEx (by decide)⟩

/-- C3: `ReadCSD` zeroes the 16-byte csd buffer and sends SEND_CSD, then
polls for the 0xFE data token with up to 100 exchanges of 0xFF.  If every
poll returns 0xFF, or the first byte that breaks the poll is not the
token, it returns ReadWriteFail with the buffer still zeroed; if the
token appears it reads exactly 16 bytes into the buffer, discards one
trailing CRC byte, and returns Ok. -/
theorem readCSD_phases (s : St) :
    ((∀ k < 100,
        (SD_send_command SD_SEND_CSD 0 { s with csd := List.replicate 16 0 }).2.inp
          ((SD_send_command SD_SEND_CSD 0 { s with csd := List.replicate 16 0 }).2.pos + k)
          % 256 = 0xff) ∧
      ReadCSD s = (SDCARD_RWFAIL,
        advance 100 (SD_send_command SD_SEND_CSD 0 { s with csd := List.replicate 16 0 }).2) ∧
      (ReadCSD s).2.csd = List.replicate 16 0) ∨
    (∃ k, k < 100 ∧
      (∀ j < k,
        (SD_send_command SD_SEND_CSD 0 { s with csd := List.replicate 16 0 }).2.inp
          ((SD_send_command SD_SEND_CSD 0 { s with csd := List.replicate 16 0 }).2.pos + j)
          % 256 = 0xff) ∧
      (SD_send_command SD_SEND_CSD 0 { s with csd := List.replicate 16 0 }).2.inp
        ((SD_send_command SD_SEND_CSD 0 { s with csd := List.replicate 16 0 }).2.pos + k)
        % 256 ≠ 0xff ∧
      (((SD_send_command SD_SEND_CSD 0 { s with csd := List.replicate 16 0 }).2.inp
          ((SD_send_command SD_SEND_CSD 0 { s with csd := List.replicate 16 0 }).2.pos + k)
          % 256 = 0xfe ∧
        (ReadCSD s).1 = SDCARD_OK ∧
        (ReadCSD s).2.csd = (List.range 16).map (fun j =>
          (SD_send_command SD_SEND_CSD 0 { s with csd := List.replicate 16 0 }).2.inp
            ((SD_send_command SD_SEND_CSD 0 { s with csd := List.replicate 16 0 }).2.pos
              + (k + 1) + j) % 256) ∧
        (ReadCSD s).2.pos =
          (SD_send_command SD_SEND_CSD 0 { s with csd := List.replicate 16 0 }).2.pos
            + k + 18) ∨
       ((SD_send_command SD_SEND_CSD 0 { s with csd := List.replicate 16 0 }).2.inp
          ((SD_send_command SD_SEND_CSD 0 { s with csd := List.replicate 16 0 }).2.pos + k)
          % 256 ≠ 0xfe ∧
        ReadCSD s = (SDCARD_RWFAIL, advance (k + 1)
          (SD_send_command SD_SEND_CSD 0 { s with csd := List.replicate 16 0 }).2) ∧
        (ReadCSD s).2.csd = List.replicate 16 0))) := by
  by_cases hall : ∀ k < 100,
      (SD_send_command SD_SEND_CSD 0 { s with csd := List.replicate 16 0 }).2.inp
        ((SD_send_command SD_SEND_CSD 0 { s with csd := List.replicate 16 0 }).2.pos + k)
        % 256 = 0xff
  · have hw : waitLoop 100
        (SD_send_command SD_SEND_CSD 0 { s with csd := List.replicate 16 0 }).2 =
        (0xff, advance 100
          (SD_send_command SD_SEND_CSD 0 { s with csd := List.replicate 16 0 }).2) :=
      waitLoop_all_ff 100 _ (by omega) hall
    have hr : ReadCSD s = (SDCARD_RWFAIL, advance 100
        (SD_send_command SD_SEND_CSD 0 { s with csd := List.replicate 16 0 }).2) := by
      simp only [ReadCSD, SD_wait_for_data]
      rw [hw, if_pos (show (0xff : Nat) ≠ 0xfe by decide)]
    refine Or.inl ⟨hall, hr, ?_⟩
    rw [hr]
    simp
  · push_neg at hall
    obtain ⟨k0, hk0lt, hk0ne⟩ := hall
    have hex : ∃ j, j < 100 ∧
        (SD_send_command SD_SEND_CSD 0 { s with csd := List.replicate 16 0 }).2.inp
          ((SD_send_command SD_SEND_CSD 0 { s with csd := List.replicate 16 0 }).2.pos + j)
          % 256 ≠ 0xff := ⟨k0, hk0lt, hk0ne⟩
    have hspec := Nat.find_spec hex
    have hmin : ∀ j < Nat.find hex,
        (SD_send_command SD_SEND_CSD 0 { s with csd := List.replicate 16 0 }).2.inp
          ((SD_send_command SD_SEND_CSD 0 { s with csd := List.replicate 16 0 }).2.pos + j)
          % 256 = 0xff := fun j hj => by
      by_contra hne
      exact Nat.find_min hex hj ⟨by omega, hne⟩
    have hw := waitLoop_found 100 _ (Nat.find hex) hspec.1 hmin hspec.2
    by_cases hfe :
        (SD_send_command SD_SEND_CSD 0 { s with csd := List.replicate 16 0 }).2.inp
          ((SD_send_command SD_SEND_CSD 0 { s with csd := List.replicate 16 0 }).2.pos
            + Nat.find hex) % 256 = 0xfe
    · have hr : ReadCSD s = (SDCARD_OK, xchg1 0xff
          { (readBytes 16 (advance (Nat.find hex + 1)
              (SD_send_command SD_SEND_CSD 0 { s with csd := List.replicate 16 0 }).2)).2 with
            csd := (readBytes 16 (advance (Nat.find hex + 1)
              (SD_send_command SD_SEND_CSD 0 { s with csd := List.replicate 16 0 }).2)).1 }) := by
        simp only [ReadCSD, SD_wait_for_data]
        rw [hw, if_neg (not_not_intro hfe)]
      refine Or.inr ⟨Nat.find hex, hspec.1, hmin, hspec.2, Or.inl ⟨hfe, ?_, ?_, ?_⟩⟩
      · rw [hr]
      · rw [hr]
        simp [readBytes_eq, xchg1, Xchg]
      · rw [hr]
        simp [readBytes_eq, xchg1, Xchg]
        omega
    · have hr : ReadCSD s = (SDCARD_RWFAIL, advance (Nat.find hex + 1)
          (SD_send_command SD_SEND_CSD 0 { s with csd := List.replicate 16 0 }).2) := by
        simp only [ReadCSD, SD_wait_for_data]
        rw [hw, if_pos hfe]
      refine Or.inr ⟨Nat.find hex, hspec.1, hmin, hspec.2, Or.inr ⟨hfe, hr, ?_⟩⟩
      rw [hr]
      simp

/-- C7: after `SD_send_command` returns, the card remains selected exactly
when the command sent is one of the `keepSelected` commands (read block,
read OCR, send CSD, send status, send CID, send interface condition,
lock/unlock, program CSD); for every other command the card is deselected
and one trailing 0xFF idle byte is exchanged last. -/
theorem sendCommand_bus_select (command arg : Nat) (s : St)
    (h : command &&& 0x80 = 0) :
    ((SD_send_command command arg s).2.selected = true ↔
      command ∈ keepSelected) ∧
    (command ∉ keepSelected →
      ∃ l, (SD_send_command command arg s).2.evs =
        Ev.xchg 0xff :: Ev.desel :: l) := by
  rw [send_plain command arg s h]
  exact ⟨core_selected command arg s, core_deselects command arg s⟩

/-- C2: `WriteCSD` returns ReadWriteFail, before sending any data-phase
byte, exactly when the PROGRAM_CSD response is nonzero; otherwise it
sends the 0xFE token, the first 15 csd bytes folded into a CRC7, the CRC
byte `(crc << 1) + 1`, two dummy bytes, and then returns Ok exactly when
one of the 65535 busy-wait exchanges yields a nonzero byte and Timeout
exactly when all of them return zero. -/
theorem writeCSD_phases (s : St) (h16 : s.csd.length = 16) :
    ((SD_send_command SD_PROGRAM_CSD 0 s).1 ≠ 0 ∧
      WriteCSD s = (SDCARD_RWFAIL, (SD_send_command SD_PROGRAM_CSD 0 s).2)) ∨
    ((SD_send_command SD_PROGRAM_CSD 0 s).1 = 0 ∧
      (∃ busy, (∀ e ∈ busy, e = Ev.xchg 0xff) ∧
        (WriteCSD s).2.evs = busy ++
          Ev.xchg 0xff :: Ev.xchg 0xff ::
          Ev.xchg (((s.csd.take 15).foldl AddByteToCRC 0 <<< 1 + 1) % 256) ::
          (dataEvs (s.csd.take 15) ++
            Ev.xchg 0xfe :: (SD_send_command SD_PROGRAM_CSD 0 s).2.evs)) ∧
      ((WriteCSD s).1 = SDCARD_OK ↔
        ∃ k < 0xffff,
          s.inp ((SD_send_command SD_PROGRAM_CSD 0 s).2.pos + 19 + k) % 256 ≠ 0) ∧
      ((WriteCSD s).1 = SDCARD_TIMEOUT ↔
        ∀ k < 0xffff,
          s.inp ((SD_send_command SD_PROGRAM_CSD 0 s).2.pos + 19 + k) % 256 = 0)) := by
  by_cases h0 : (SD_send_command SD_PROGRAM_CSD 0 s).1 ≠ 0
  · refine Or.inl ⟨h0, ?_⟩
    simp only [WriteCSD]
    rw [if_pos h0]
  · have h0' : (SD_send_command SD_PROGRAM_CSD 0 s).1 = 0 := not_ne_iff.mp h0
    have h15 : (s.csd.take 15).length = 15 := by
      rw [List.length_take]
      omega
    set S4 : St :=
      { (SD_send_command SD_PROGRAM_CSD 0 s).2 with
        pos := (SD_send_command SD_PROGRAM_CSD 0 s).2.pos + 19,
        evs := Ev.xchg 0xff :: Ev.xchg 0xff ::
          Ev.xchg (((s.csd.take 15).foldl AddByteToCRC 0 <<< 1 + 1) % 256) ::
          (dataEvs (s.csd.take 15) ++
            Ev.xchg 0xfe :: (SD_send_command SD_PROGRAM_CSD 0 s).2.evs) }
      with hS4
    have hws : WriteCSD s =
        (if (busyWait 0xffff S4).1 ≠ 0 then (SDCARD_OK, (busyWait 0xffff S4).2)
         else (SDCARD_TIMEOUT, (busyWait 0xffff S4).2)) := by
      simp only [WriteCSD]
      rw [if_neg h0,
          writeCSD_data_state (SD_send_command SD_PROGRAM_CSD 0 s).2 s.csd
            (send_csd SD_PROGRAM_CSD 0 s) h15, hS4]
    have h1 : (WriteCSD s).1 =
        (if (busyWait 0xffff S4).1 ≠ 0 then SDCARD_OK else SDCARD_TIMEOUT) := by
      rw [hws]
      split_ifs <;> rfl
    have hsnd : (WriteCSD s).2 = (busyWait 0xffff S4).2 := by
      rw [hws]
      split_ifs <;> rfl
    have hiff : (busyWait 0xffff S4).1 ≠ 0 ↔
        ∃ k < 0xffff,
          s.inp ((SD_send_command SD_PROGRAM_CSD 0 s).2.pos + 19 + k) % 256 ≠ 0 := by
      rw [busyWait_ok_iff, hS4]
      simp
    obtain ⟨m, hm⟩ := busyWait_advance 0xffff S4
    refine Or.inr ⟨h0', ⟨List.replicate m (Ev.xchg 0xff),
      fun e he => List.eq_of_mem_replicate he, ?_⟩, ?_, ?_⟩
    · rw [hsnd, hm, hS4]
      rfl
    · rw [h1]
      by_cases hbw : (busyWait 0xffff S4).1 ≠ 0
      · exact iff_of_true (by rw [if_pos hbw]) (hiff.mp hbw)
      · exact iff_of_false (by rw [if_neg hbw]; decide)
          (fun hex => hbw (hiff.mpr hex))
    · rw [h1]
      by_cases hbw : (busyWait 0xffff S4).1 ≠ 0
      · refine iff_of_false (by rw [if_pos hbw]; decide) ?_
        intro hall
        obtain ⟨k, hk, hne⟩ := hiff.mp hbw
        exact hne (hall k hk)
      · refine iff_of_true (by rw [if_neg hbw]) ?_
        intro k hk
        by_contra hne
        exact hbw (hiff.mpr ⟨k, hk, hne⟩)

theorem writeCSD_phases_witness :
    sEx.csd.length = 16 ∧
    (((SD_send_command SD_PROGRAM_CSD 0 sEx).1 ≠ 0 ∧
      WriteCSD sEx = (SDCARD_RWFAIL, (SD_send_command SD_PROGRAM_CSD 0 sEx).2)) ∨
     ((SD_send_command SD_PROGRAM_CSD 0 sEx).1 = 0 ∧
      (∃ busy, (∀ e ∈ busy, e = Ev.xchg 0xff) ∧
        (WriteCSD sEx).2.evs = busy ++
          Ev.xchg 0xff :: Ev.xchg 0xff ::
          Ev.xchg (((sEx.csd.take 15).foldl AddByteToCRC 0 <<< 1 + 1) % 256) ::
          (dataEvs (sEx.csd.take 15) ++
            Ev.xchg 0xfe :: (SD_send_command SD_PROGRAM_CSD 0 sEx).2.evs)) ∧
      ((WriteCSD sEx).1 = SDCARD_OK ↔
        ∃ k < 0xffff,
          sEx.inp ((SD_send_command SD_PROGRAM_CSD 0 sEx).2.pos + 19 + k) % 256 ≠ 0) ∧
      ((WriteCSD sEx).1 = SDCARD_TIMEOUT ↔
        ∀ k < 0xffff,
          sEx.inp ((SD_send_command SD_PROGRAM_CSD 0 sEx).2.pos + 19 + k) % 256 = 0))) :=
  ⟨by decide, writeCSD_phases sEx (by decide)⟩

theorem sendCommand_bus_select_witness :
    SD_GO_IDLE &&& 0x80 = 0 ∧
    (((SD_send_command SD_GO_IDLE 0 sEx).2.selected = true ↔
       SD_GO_IDLE ∈ keepSelected) ∧
     (SD_GO_IDLE ∉ keepSelected →
       ∃ l, (SD_send_command SD_GO_IDLE 0 sEx).2.evs =
         Ev.xchg 0xff :: Ev.desel :: l)) :=
  ⟨by decide, sendCommand_bus_select SD_GO_IDLE 0 sEx (by decide)⟩

/-- C6: `SDInit` returns NotDetected exactly when none of the up to 10
go-idle commands answers 0x01; in every other case it returns Ok, and a
return of Ok does not imply the card type was determined — the card
`sEx2` passes the idle handshake but fails both detection probes, so
`SDInit` returns Ok with `sdtype` still unknown. -/
theorem sdInit_detect :
    (∀ s : St,
      ((SDInit s).1 = SDCARD_NOT_DETECTED ↔
        ∀ k < 10, goIdleResp (sdInitPre s) k ≠ 0x01) ∧
      ((SDInit s).1 = SDCARD_NOT_DETECTED ∨ (SDInit s).1 = SDCARD_OK)) ∧
    ((SDInit sEx2).1 = SDCARD_OK ∧ (SDInit sEx2).2.sdtype = SDTYPE_UNKNOWN) := by
  refine ⟨fun s => ?_, by decide, by decide⟩
  have hloop := goIdleLoop_one_iff 10 (sdInitPre s)
  simp only [SDInit]
  by_cases hg : (goIdleLoop 10 (sdInitPre s)).1 ≠ 0x01
  · rw [if_pos hg]
    refine ⟨iff_of_true rfl ?_, Or.inl rfl⟩
    intro k hk hresp
    exact hg (hloop.mpr ⟨k, hk, hresp⟩)
  · rw [if_neg hg]
    refine ⟨iff_of_false (show ¬(SDCARD_OK = SDCARD_NOT_DETECTED) by decide) ?_,
      Or.inr rfl⟩
    intro hall
    obtain ⟨k, hk, hresp⟩ := hloop.mp (not_not.mp hg)
    exact hall k hk hresp

/-- C8: toggling the lock state twice in succession returns byte 14 of
the in-memory csd buffer to its original value, whatever the card
answers during the two writes. -/
theorem toggle_twice_byte14 (s : St) (h16 : s.csd.length = 16)
    (hb : s.csd.getD 14 0 < 256) :
    (ToggleState (ToggleState s)).csd.getD 14 0 = s.csd.getD 14 0 := by
  have hlen : 14 < s.csd.length := by omega
  have hget : ∀ v : Nat, (s.csd.set 14 v).getD 14 0 = v := fun v =>
    getD_set_14 s.csd hlen v
  have hlen2 : ∀ v : Nat, 14 < (s.csd.set 14 v).length := fun v => by
    rw [List.length_set]; omega
  rw [toggle_csd, toggle_csd, hget, getD_set_14 _ (hlen2 _)]
  exact flip_flip (s.csd.getD 14 0) hb

theorem toggle_twice_byte14_witness :
    sExL.csd.length = 16 ∧ sExL.csd.getD 14 0 < 256 ∧
    (ToggleState (ToggleState sExL)).csd.getD 14 0 = sExL.csd.getD 14 0 :=
  ⟨by decide, by decide, toggle_twice_byte14 sExL (by decide) (by decide)⟩

/-- C9: `ToggleState` flips the lock bit of csd byte 14 in the in-memory
buffer, leaves the other bytes untouched, and the resulting buffer is the
flipped one regardless of whether `WriteCSD` succeeded — the in-memory
copy is not restored on a failed write. -/
theorem toggle_flips_lock (s : St) (h16 : s.csd.length = 16)
    (hb : s.csd.getD 14 0 < 256) :
    (CardIsLocked (ToggleState s) = 0 ↔ CardIsLocked s ≠ 0) ∧
    (∀ i, i ≠ 14 → (ToggleState s).csd.getD i 0 = s.csd.getD i 0) ∧
    (ToggleState s).csd =
      s.csd.set 14 (if CardIsLocked s ≠ 0 then s.csd.getD 14 0 &&& 0xef
        else s.csd.getD 14 0 ||| LOCK_BIT_MASK) := by
  have hlen : 14 < s.csd.length := by omega
  refine ⟨?_, ?_, toggle_csd s⟩
  · simp only [CardIsLocked]
    rw [toggle_csd, getD_set_14 _ hlen]
    split_ifs with h
    · exact iff_of_true (lockbit_clear _ hb) h
    · refine iff_of_false ?_ h
      rw [lockbit_set _ hb]
      decide
  · intro i hi
    rw [toggle_csd, getD_set_other _ i _ hi]

theorem toggle_flips_lock_witness :
    sExL.csd.length = 16 ∧ sExL.csd.getD 14 0 < 256 ∧
    ((CardIsLocked (ToggleState sExL) = 0 ↔ CardIsLocked sExL ≠ 0) ∧
     (∀ i, i ≠ 14 → (ToggleState sExL).csd.getD i 0 = sExL.csd.getD i 0) ∧
     (ToggleState sExL).csd =
       sExL.csd.set 14 (if CardIsLocked sExL ≠ 0 then sExL.csd.getD 14 0 &&& 0xef
         else sExL.csd.getD 14 0 ||| LOCK_BIT_MASK)) :=
  ⟨by decide, by decide, toggle_flips_lock sExL (by decide) (by decide)⟩

/-- C10: when the interface-condition probe answers 0x01, `SDInit` sets
`sdtype` to SDHC unconditionally — whatever the ACMD41 polls return —
and after an Ok return `sdtype` is still unknown only on the path where
the interface-condition response is not 0x01 and the read-OCR response
is also not 0x01. -/
theorem sdInit_card_type (s : St) :
    ((goIdleLoop 10 (sdInitPre s)).1 ≠ 0x01 ∧
      (SDInit s).1 = SDCARD_NOT_DETECTED) ∨
    ((goIdleLoop 10 (sdInitPre s)).1 = 0x01 ∧
      (SD_send_command SD_SEND_IF_COND 0x1aa (goIdleLoop 10 (sdInitPre s)).2).1
        = 0x01 ∧
      (SDInit s).2.sdtype = SDTYPE_SDHC ∧ (SDInit s).1 = SDCARD_OK) ∨
    ((goIdleLoop 10 (sdInitPre s)).1 = 0x01 ∧
      (SD_send_command SD_SEND_IF_COND 0x1aa (goIdleLoop 10 (sdInitPre s)).2).1
        ≠ 0x01 ∧
      (SD_send_command SD_READ_OCR 0
        (SD_send_command SD_SEND_IF_COND 0x1aa (goIdleLoop 10 (sdInitPre s)).2).2).1
        = 0x01 ∧
      (SDInit s).2.sdtype = SDTYPE_SD ∧ (SDInit s).1 = SDCARD_OK) ∨
    ((goIdleLoop 10 (sdInitPre s)).1 = 0x01 ∧
      (SD_send_command SD_SEND_IF_COND 0x1aa (goIdleLoop 10 (sdInitPre s)).2).1
        ≠ 0x01 ∧
      (SD_send_command SD_READ_OCR 0
        (SD_send_command SD_SEND_IF_COND 0x1aa (goIdleLoop 10 (sdInitPre s)).2).2).1
        ≠ 0x01 ∧
      (SDInit s).2.sdtype = SDTYPE_UNKNOWN ∧ (SDInit s).1 = SDCARD_OK) := by
  by_cases hg : (goIdleLoop 10 (sdInitPre s)).1 = 0x01
  · by_cases h8 : (SD_send_command SD_SEND_IF_COND 0x1aa
        (goIdleLoop 10 (sdInitPre s)).2).1 = 0x01
    · refine Or.inr (Or.inl ⟨hg, h8, ?_, ?_⟩)
      · simp only [SDInit]
        rw [if_neg (not_not_intro hg), if_pos h8]
        rfl
      · simp only [SDInit]
        rw [if_neg (not_not_intro hg)]
    · by_cases hocr : (SD_send_command SD_READ_OCR 0
          (SD_send_command SD_SEND_IF_COND 0x1aa
            (goIdleLoop 10 (sdInitPre s)).2).2).1 = 0x01
      · refine Or.inr (Or.inr (Or.inl ⟨hg, h8, hocr, ?_, ?_⟩))
        · simp only [SDInit]
          rw [if_neg (not_not_intro hg), if_neg h8, if_pos hocr]
          rfl
        · simp only [SDInit]
          rw [if_neg (not_not_intro hg)]
      · refine Or.inr (Or.inr (Or.inr ⟨hg, h8, hocr, ?_, ?_⟩))
        · simp only [SDInit]
          rw [if_neg (not_not_intro hg), if_neg h8, if_neg hocr]
          simp [xchg1, Xchg]
        · simp only [SDInit]
          rw [if_neg (not_not_intro hg)]
  · refine Or.inl ⟨hg, ?_⟩
    simp only [SDInit]
    rw [if_pos hg]

end SdLocker
